import Mathlib

/-!
Shallow embedding of the chat application's conversation-orchestration core:
the session persistence layer (chatHistoryService), the search-history store
(searchHistoryService), the provider client with its error classifier
(geminiService), and the per-turn controller logic of the App component.
Each definition is translated from the corresponding TypeScript source
function and keeps its name.  Provider outcomes (stream fragments, poll
statuses, raw errors) are passed in explicitly, since the provider is an
external collaborator.
-/

set_option maxHeartbeats 1000000

namespace ChatApp

/-- Sender of a message, the TS union `'user' | 'model'`. -/
inductive Sender where
  | user
  | model
deriving DecidableEq, Repr

/-- The Message record from types.ts: sender, text, optional image/video URL. -/
structure Message where
  sender : Sender
  text : String
  imageUrl : Option String := none
  videoUrl : Option String := none
deriving DecidableEq, Repr

/-- The ChatSession record from types.ts. -/
structure ChatSession where
  id : String
  title : String
  messages : List Message
deriving DecidableEq, Repr

/-- JSON values as produced by JSON.stringify on the persisted records.
Sessions and search histories only contain strings, arrays and objects
(optional fields are simply absent), so those three constructors suffice. -/
inductive Json where
  | str (s : String)
  | arr (xs : List Json)
  | obj (fields : List (String × Json))

/-- Field lookup on a JSON object, the shape-free property access JS performs
on the value returned by JSON.parse. -/
def Json.getField : Json → String → Option Json
  | .obj fields, k => (fields.find? (fun f => f.1 == k)).map (fun f => f.2)
  | _, _ => none

/-- Reads a JSON string value. -/
def Json.getStr : Json → Option String
  | .str s => some s
  | _ => none

/-- Serialization of a Sender to its JSON string. -/
def senderToJson : Sender → Json
  | .user => .str "user"
  | .model => .str "model"

/-- Serialization of a Message; JSON.stringify omits absent optional fields. -/
def encodeMessage (m : Message) : Json :=
  .obj ([("sender", senderToJson m.sender), ("text", .str m.text)]
    ++ (match m.imageUrl with | some u => [("imageUrl", Json.str u)] | none => [])
    ++ (match m.videoUrl with | some u => [("videoUrl", Json.str u)] | none => []))

/-- Serialization of a ChatSession. -/
def encodeSession (s : ChatSession) : Json :=
  .obj [("id", .str s.id), ("title", .str s.title),
        ("messages", .arr (s.messages.map encodeMessage))]

/-- Serialization of the whole session collection (the value JSON.stringify
receives in saveChatHistory). -/
def encodeSessions (h : List ChatSession) : Json :=
  .arr (h.map encodeSession)

/-- Reads a Sender back from JSON. -/
def decodeSender (j : Json) : Option Sender :=
  match j with
  | .str "user" => some .user
  | .str "model" => some .model
  | _ => none

/-- Reads an optional string field: absent means `none`, present must be a
string. -/
def decodeOptField (j : Json) (k : String) : Option (Option String) :=
  match j.getField k with
  | none => some none
  | some v => v.getStr.map some

/-- Reads a Message back from the parsed JSON. -/
def decodeMessage (j : Json) : Option Message := do
  let snd ← (j.getField "sender").bind decodeSender
  let txt ← (j.getField "text").bind Json.getStr
  let iu ← decodeOptField j "imageUrl"
  let vu ← decodeOptField j "videoUrl"
  pure { sender := snd, text := txt, imageUrl := iu, videoUrl := vu }

/-- Traverses a list of JSON values with a decoder, failing if any element
fails. -/
def decodeListWith {α : Type} (f : Json → Option α) : List Json → Option (List α)
  | [] => some []
  | j :: rest => do
    let x ← f j
    let xs ← decodeListWith f rest
    pure (x :: xs)

/-- Reads a ChatSession back from the parsed JSON. -/
def decodeSession (j : Json) : Option ChatSession := do
  let i ← (j.getField "id").bind Json.getStr
  let t ← (j.getField "title").bind Json.getStr
  let msJson ← j.getField "messages"
  match msJson with
  | .arr xs => do
    let ms ← decodeListWith decodeMessage xs
    pure { id := i, title := t, messages := ms }
  | _ => none

/-- Reads the session collection back from the parsed JSON. -/
def decodeSessions (j : Json) : Option (List ChatSession) :=
  match j with
  | .arr xs => decodeListWith decodeSession xs
  | _ => none

/-- Serialization of the search history (an array of strings). -/
def encodeStrings (l : List String) : Json :=
  .arr (l.map Json.str)

/-- Reads the search history back from the parsed JSON. -/
def decodeStrings (j : Json) : Option (List String) :=
  match j with
  | .arr xs => decodeListWith Json.getStr xs
  | _ => none

theorem decodeMessage_encodeMessage (m : Message) :
    decodeMessage (encodeMessage m) = some m := by
  obtain ⟨snd, txt, iu, vu⟩ := m
  cases snd <;> cases iu <;> cases vu <;> rfl

theorem decodeListWith_map {α : Type} (f : Json → Option α) (g : α → Json)
    (hfg : ∀ x, f (g x) = some x) :
    ∀ l : List α, decodeListWith f (l.map g) = some l := by
  intro l
  induction l with
  | nil => rfl
  | cons x xs ih =>
    simp [decodeListWith, hfg, ih]

theorem decodeSession_encodeSession (s : ChatSession) :
    decodeSession (encodeSession s) = some s := by
  obtain ⟨i, t, ms⟩ := s
  simp [decodeSession, encodeSession, Json.getField, List.find?, Json.getStr,
    decodeListWith_map decodeMessage encodeMessage decodeMessage_encodeMessage]

theorem decodeSessions_encodeSessions (h : List ChatSession) :
    decodeSessions (encodeSessions h) = some h := by
  simp [decodeSessions, encodeSessions,
    decodeListWith_map decodeSession encodeSession decodeSession_encodeSession]

theorem decodeStrings_encodeStrings (l : List String) :
    decodeStrings (encodeStrings l) = some l := by
  simp [decodeStrings, encodeStrings]
  exact decodeListWith_map Json.getStr Json.str (fun _ => rfl) l

/-- The two localStorage records the app writes: the session collection under
CHAT_HISTORY_KEY and the search history under SEARCH_HISTORY_KEY, each holding
the parsed-JSON view of the stored string (`none` = key absent). -/
structure Storage where
  chat : Option Json
  search : Option Json

/-- getChatHistory from chatHistoryService: parse the stored record, empty
collection when the key is absent (the catch branch maps a parse failure to
the empty collection as well, modelled by the `getD []`). -/
def getChatHistory (stor : Storage) : List ChatSession :=
  match stor.chat with
  | none => []
  | some j => (decodeSessions j).getD []

/-- saveChatHistory: serialize the whole collection and store it. -/
def saveChatHistory (stor : Storage) (history : List ChatSession) : Storage :=
  { stor with chat := some (encodeSessions history) }

/-- createNewSession: build a session whose id is the current timestamp
(`new Date().toISOString()`, passed here as `now`), with the default title and
an empty transcript, unshift it onto the loaded history and persist. -/
def createNewSession (stor : Storage) (now : String) : ChatSession × Storage :=
  let newSession : ChatSession := { id := now, title := "Novo Chat", messages := [] }
  let history := getChatHistory stor
  (newSession, saveChatHistory stor (newSession :: history))

/-- Helper for updateSessionTitle: `history.find` returns the first session
with the given id and the source mutates that one object in place, so only
the first match gets the new title. -/
def setTitleFirst : List ChatSession → String → String → List ChatSession
  | [], _, _ => []
  | s :: rest, sid, title =>
    if s.id == sid then { s with title := title } :: rest
    else s :: setTitleFirst rest sid title

/-- updateSessionTitle: load, retitle the first session with the given id (if
any) and persist; when no session matches, nothing is saved. -/
def updateSessionTitle (stor : Storage) (sessionId title : String) :
    List ChatSession × Storage :=
  let history := getChatHistory stor
  match history.find? (fun s => s.id == sessionId) with
  | some _ =>
    let history2 := setTitleFirst history sessionId title
    (history2, saveChatHistory stor history2)
  | none => (history, stor)

/-- deleteSession from chatHistoryService: filter the id out and persist. -/
def deleteSession (stor : Storage) (sessionId : String) :
    List ChatSession × Storage :=
  let history := (getChatHistory stor).filter (fun s => !(s.id == sessionId))
  (history, saveChatHistory stor history)

/-- getSearchHistory from searchHistoryService. -/
def getSearchHistory (stor : Storage) : List String :=
  match stor.search with
  | none => []
  | some j => (decodeStrings j).getD []

/-- saveSearchHistory from searchHistoryService. -/
def saveSearchHistory (stor : Storage) (history : List String) : Storage :=
  { stor with search := some (encodeStrings history) }

/-- The MAX_HISTORY_SIZE cap of searchHistoryService. -/
def MAX_HISTORY_SIZE : Nat := 100

/-- JS `String.prototype.toLowerCase`, modelled characterwise with
`Char.toLower`. -/
def strToLower (s : String) : String :=
  String.mk (s.toList.map Char.toLower)

/-- JS `String.prototype.trim`: strip leading and trailing whitespace. -/
def strTrim (s : String) : String :=
  String.mk (((s.toList.dropWhile Char.isWhitespace).reverse.dropWhile
    Char.isWhitespace).reverse)

/-- addSearchHistoryEntry: ignore an empty query (the only falsy string);
otherwise drop every case-insensitive match, prepend the query and truncate
to the cap before saving. -/
def addSearchHistoryEntry (stor : Storage) (query : String) : Storage :=
  if query == "" then stor
  else
    let history := (getSearchHistory stor).filter
      (fun item => !(strToLower item == strToLower query))
    let history2 := query :: history
    let history3 := if history2.length > MAX_HISTORY_SIZE
      then history2.take MAX_HISTORY_SIZE else history2
    saveSearchHistory stor history3

/-- Character-list test for `pat` being a prefix of `l`. -/
def listLeads : List Char → List Char → Bool
  | [], _ => true
  | _ :: _, [] => false
  | a :: as, b :: bs => a == b && listLeads as bs

/-- Character-list test for `pat` occurring contiguously inside `l`. -/
def listHasSub (pat : List Char) : List Char → Bool
  | [] => pat.isEmpty
  | b :: bs => listLeads pat (b :: bs) || listHasSub pat bs

/-- JS `String.prototype.includes`, the substring test the error classifier
relies on. -/
def strContains (s pat : String) : Bool :=
  listHasSub pat.toList s.toList

/-- A raw provider failure as the classifier's extraction logic distinguishes
its shapes: an object (with the optional `error.message` nesting and the
optional own `message`), a plain string, or anything else. -/
inductive RawError where
  | obj (nested : Option String) (message : Option String)
  | str (s : String)
  | prim
deriving DecidableEq, Repr

/-- The message extraction of handleApiError: `error.error?.message` when
truthy, else `error.message` when truthy, plain strings verbatim, and the
fixed default otherwise. -/
def extractMessage : RawError → String
  | .obj nested message =>
    match nested with
    | some m => if m ≠ "" then m else
      match message with
      | some m2 => if m2 ≠ "" then m2 else "An unknown error occurred."
      | none => "An unknown error occurred."
    | none =>
      match message with
      | some m2 => if m2 ≠ "" then m2 else "An unknown error occurred."
      | none => "An unknown error occurred."
  | .str s => s
  | .prim => "An unknown error occurred."

/-- The classified error handleApiError returns: a BillingError instance
(distinguished by `instanceof` in the controller) or a plain Error, each
carrying the localized user-facing message. -/
structure ApiError where
  isBilling : Bool
  message : String
deriving DecidableEq, Repr

/-- The BillingError produced for the "billed users" pattern; the feature
name in the message depends on the context string. -/
def billingApiError (context : String) : ApiError :=
  let featureName :=
    if strContains context "imagem" then "geração de imagens"
    else if strContains context "vídeo" then "geração de vídeo"
    else "esta funcionalidade"
  { isBilling := true,
    message := "A " ++ featureName ++ " está indisponível. A API do Google requer que o faturamento esteja ativado para este recurso." }

/-- The classified error for the "API key not valid" pattern. -/
def invalidKeyApiError : ApiError :=
  { isBilling := false,
    message := "Sua chave de API é inválida. Por favor, verifique-a nas configurações e tente novamente." }

/-- The classified error for the "quota" pattern. -/
def quotaApiError : ApiError :=
  { isBilling := false,
    message := "Você atingiu sua cota de uso da API. Por favor, verifique seu plano ou tente novamente mais tarde." }

/-- The generic fallback classified error, parameterized by context. -/
def genericApiError (context : String) : ApiError :=
  { isBilling := false,
    message := "Desculpe, ocorreu um erro inesperado durante a " ++ context ++ ". Por favor, tente novamente." }

/-- handleApiError from geminiService: extract the message, then test the
known substrings in source order and return the matching classified error,
falling back to the generic one. -/
def handleApiError (error : RawError) (context : String) : ApiError :=
  let errorMessage := extractMessage error
  if strContains errorMessage "billed users" then billingApiError context
  else if strContains errorMessage "API key not valid" then invalidKeyApiError
  else if strContains errorMessage "quota" then quotaApiError
  else genericApiError context

/-- generateImage from geminiService, with the provider outcome passed in:
a raw failure, or a response whose first generated image may or may not carry
image bytes.  A payload-free success becomes the internal Error that the
function's own catch then classifies. -/
def generateImage (outcome : Except RawError (Option String)) :
    Except ApiError String :=
  match outcome with
  | .ok (some imageBytes) => .ok imageBytes
  | .ok none =>
    .error (handleApiError
      (RawError.obj none (some "A API não retornou uma imagem válida."))
      "geração de imagem")
  | .error e => .error (handleApiError e "geração de imagem")

/-- One status report of the long-running video operation: the done flag and
the result URI (`operation.response?.generatedVideos?.[0]?.video?.uri`). -/
structure VideoOp where
  done : Bool
  uri : Option String := none
deriving DecidableEq, Repr

/-- The poll loop of generateVideo: keep taking the next status until one
reports done; `none` models the unbounded loop never observing done. -/
def pollLoop : VideoOp → List VideoOp → Option VideoOp
  | op, [] => if op.done then some op else none
  | op, r :: rs => if op.done then some op else pollLoop r rs

/-- generateVideo from geminiService: on a raw failure classify it; otherwise
poll the successive statuses until done, then append the API-key credential
to the result URI, or classify the internal no-link Error when the completed
operation carries no URI.  `none` is the poll loop never completing. -/
def generateVideo (outcome : Except RawError (VideoOp × List VideoOp))
    (apiKey : String) : Option (Except ApiError String) :=
  match outcome with
  | .error e => some (.error (handleApiError e "geração de vídeo"))
  | .ok (op0, rest) =>
    match pollLoop op0 rest with
    | none => none
    | some opFinal =>
      match opFinal.uri with
      | some downloadLink => some (.ok (downloadLink ++ "&key=" ++ apiKey))
      | none =>
        some (.error (handleApiError
          (RawError.obj none (some "A API não retornou um link de vídeo válido."))
          "geração de vídeo"))

/-- The character class of the second title-cleaning regex: quotes, asterisk,
hash and whitespace (`["'*#\s]`). -/
def isTrimChar (c : Char) : Bool :=
  c == Char.ofNat 34 || c == Char.ofNat 39 || c == '*' || c == '#' || c.isWhitespace

/-- The first title-cleaning regex `^(título|title):?\s*` (case-insensitive,
first match only): strip the leading word, an optional colon and following
whitespace.  Case folding is modelled by `Char.toLower`. -/
def stripTitleTag (s : String) : String :=
  let cs := s.toList
  let tagged := fun (pat : List Char) =>
    (cs.take pat.length).map Char.toLower == pat
  let after := fun (rest : List Char) =>
    let rest2 := match rest with
      | ':' :: t => t
      | _ => rest
    rest2.dropWhile Char.isWhitespace
  if tagged "título".toList then String.mk (after (cs.drop 6))
  else if tagged "title".toList then String.mk (after (cs.drop 5))
  else s

/-- The second title-cleaning regex `^["'*#\s]+|["'*#\s]+$` with the global
flag: remove the leading and the trailing run of trim characters. -/
def stripSurround (s : String) : String :=
  String.mk (((s.toList.dropWhile isTrimChar).reverse.dropWhile isTrimChar).reverse)

/-- The post-processing applied to the raw title response: trim, strip the
title-word tag, strip surrounding quote/markdown characters. -/
def cleanTitle (raw : String) : String :=
  stripSurround (stripTitleTag (strTrim raw))

/-- The fixed localized fallback title. -/
def fallbackTitle (language : String) : String :=
  if language == "pt-BR" then "Novo Chat" else "New Chat"

/-- generateChatTitle from geminiService, with the provider outcome passed
in: clean a successful response and substitute the fallback when the cleaned
title is empty; absorb any failure into the fallback. -/
def generateChatTitle (outcome : Except RawError String) (language : String) :
    String :=
  match outcome with
  | .ok raw =>
    let title := cleanTitle raw
    if title == "" then fallbackTitle language else title
  | .error _ => fallbackTitle language

/-- The App component's state relevant to the conversation core: the persisted
storage, the React `sessions` / `activeSessionId` / `isLoading` /
`streamingMessage` state and the two feature-availability flags, plus the
response language. -/
structure AppState where
  storage : Storage
  sessions : List ChatSession
  activeSessionId : Option String
  isLoading : Bool
  streamingMessage : Option Message
  imageGenAvailable : Bool
  videoGenAvailable : Bool
  language : String

/-- Observable actions of a turn, in program order: a search-history write, a
persisted session collection (each saveChatHistory through updateMessages or
updateSessionTitle), the title request and its completion, the start of
stream consumption and each consumed fragment, and the image/video provider
requests. -/
inductive Event where
  | searchAdd (query : String)
  | persist (sessions : List ChatSession)
  | titleRequest (firstMessage : String)
  | titleDone (title : String)
  | streamStart
  | fragmentEvt (chunk : String)
  | imageRequest (prompt : String)
  | videoRequest (prompt : String)
deriving DecidableEq, Repr

/-- The `updateMessages` helper of App.tsx applied to its captured `sessions`
value: replace the message list of every session with the given id. -/
def updateMessagesOn (base : List ChatSession) (sessionId : String)
    (newMessages : List Message) : List ChatSession :=
  base.map (fun s => if s.id == sessionId then { s with messages := newMessages } else s)

/-- handleSendMessage from App.tsx.  The provider outcomes are inputs: the
title response (for a first message), the fragments the stream yields before
completing or aborting, and the raw error when it aborts (`none` = normal
completion).  All `updateMessages` calls act on the `sessions` value captured
when the handler was created (`sessions0`), exactly as the TS closure does.
Returns the new state and the turn's event trace. -/
def handleSendMessage (st : AppState) (messageText : String)
    (imageFile : Option String) (titleOutcome : Except RawError String)
    (fragments : List String) (streamErr : Option RawError) :
    AppState × List Event :=
  if st.isLoading || st.activeSessionId.isNone then (st, []) else
  let aid := st.activeSessionId.getD ""
  let userMessageText :=
    if imageFile.isSome && messageText == "" then "Descreva esta imagem."
    else messageText
  if userMessageText == "" then (st, []) else
  let stor1 := addSearchHistoryEntry st.storage userMessageText
  let userMessage : Message :=
    { sender := .user, text := userMessageText, imageUrl := imageFile }
  let sessions0 := st.sessions
  let currentMessages :=
    match sessions0.find? (fun s => s.id == aid) with
    | some s => s.messages ++ [userMessage]
    | none => [userMessage]
  let s1 := updateMessagesOn sessions0 aid currentMessages
  let st1 : AppState :=
    { st with storage := saveChatHistory stor1 s1, sessions := s1,
              isLoading := true,
              streamingMessage := some { sender := .model, text := "" } }
  let titled :=
    if currentMessages.length == 1 then
      let title := generateChatTitle titleOutcome st.language
      let upd := updateSessionTitle st1.storage aid title
      (({ st1 with storage := upd.2, sessions := upd.1 } : AppState),
       [Event.titleRequest userMessageText, Event.titleDone title,
        Event.persist upd.1])
    else (st1, ([] : List Event))
  let st2 := titled.1
  let evHead := Event.searchAdd userMessageText :: Event.persist s1 :: titled.2
  let evStream := Event.streamStart :: fragments.map Event.fragmentEvt
  let fullResponse := String.join fragments
  match streamErr with
  | none =>
    if fullResponse == "" then
      ({ st2 with isLoading := false, streamingMessage := none },
       evHead ++ evStream)
    else
      let finalModelMessage : Message := { sender := .model, text := fullResponse }
      let s2 := updateMessagesOn sessions0 aid (currentMessages ++ [finalModelMessage])
      ({ st2 with storage := saveChatHistory st2.storage s2, sessions := s2,
                  isLoading := false, streamingMessage := none },
       evHead ++ evStream ++ [Event.persist s2])
  | some raw =>
    let apiErr := handleApiError raw "resposta do chat"
    let errorMessage : Message :=
      { sender := .model, text := "⚠️ **Erro:** " ++ apiErr.message }
    let s2 := updateMessagesOn sessions0 aid (currentMessages ++ [errorMessage])
    ({ st2 with storage := saveChatHistory st2.storage s2, sessions := s2,
                isLoading := false, streamingMessage := none },
     evHead ++ evStream ++ [Event.persist s2])

/-- handleGenerateImage from App.tsx: rejected as a no-op while loading, with
no active session, or with the image feature flagged unavailable; otherwise
record the query, persist the user message, call the provider, and append
either the image message or the classified error message, downgrading the
image flag on a BillingError. -/
def handleGenerateImage (st : AppState) (prompt : String)
    (outcome : Except RawError (Option String)) : AppState × List Event :=
  if st.isLoading || st.activeSessionId.isNone || !st.imageGenAvailable then
    (st, [])
  else
  let aid := st.activeSessionId.getD ""
  let userMessage : Message :=
    { sender := .user, text := "Gerar imagem: \"" ++ prompt ++ "\"" }
  let stor1 := addSearchHistoryEntry st.storage userMessage.text
  let sessions0 := st.sessions
  let currentMessages :=
    match sessions0.find? (fun s => s.id == aid) with
    | some s => s.messages ++ [userMessage]
    | none => [userMessage]
  let s1 := updateMessagesOn sessions0 aid currentMessages
  let stor2 := saveChatHistory stor1 s1
  let st1 : AppState := { st with storage := stor2, sessions := s1, isLoading := true }
  let ev1 := [Event.searchAdd userMessage.text, Event.persist s1,
              Event.imageRequest prompt]
  match generateImage outcome with
  | .ok base64Image =>
    let modelMessage : Message :=
      { sender := .model, text := "Imagem gerada para: \"" ++ prompt ++ "\"",
        imageUrl := some ("data:image/png;base64," ++ base64Image) }
    let s2 := updateMessagesOn sessions0 aid (currentMessages ++ [modelMessage])
    ({ st1 with storage := saveChatHistory stor2 s2, sessions := s2,
                isLoading := false },
     ev1 ++ [Event.persist s2])
  | .error apiErr =>
    let st2 := if apiErr.isBilling
      then { st1 with imageGenAvailable := false } else st1
    let errorMessage : Message :=
      { sender := .model, text := "⚠️ **Erro:** " ++ apiErr.message }
    let s2 := updateMessagesOn sessions0 aid (currentMessages ++ [errorMessage])
    ({ st2 with storage := saveChatHistory stor2 s2, sessions := s2,
                isLoading := false },
     ev1 ++ [Event.persist s2])

/-- The pending placeholder message handleGenerateVideo persists before
polling. -/
def waitingMessage : Message :=
  { sender := .model,
    text := "Criando seu vídeo... 🎬 Isso pode levar alguns minutos. Vou te avisar assim que estiver pronto!" }

/-- handleGenerateVideo from App.tsx: same guard as the image turn on the
video flag; persist the user message, then the pending placeholder, then run
the poll loop.  On completion the final (or error) message is written over
the captured `sessions` base *without* the placeholder — the source comment
reads "Replace waiting message with the final result".  When the poll loop
never completes the state stays at the placeholder step with isLoading set. -/
def handleGenerateVideo (st : AppState) (prompt : String)
    (outcome : Except RawError (VideoOp × List VideoOp)) (apiKey : String) :
    AppState × List Event :=
  if st.isLoading || st.activeSessionId.isNone || !st.videoGenAvailable then
    (st, [])
  else
  let aid := st.activeSessionId.getD ""
  let userMessage : Message :=
    { sender := .user, text := "Gerar vídeo: \"" ++ prompt ++ "\"" }
  let stor1 := addSearchHistoryEntry st.storage userMessage.text
  let sessions0 := st.sessions
  let currentMessages :=
    match sessions0.find? (fun s => s.id == aid) with
    | some s => s.messages ++ [userMessage]
    | none => [userMessage]
  let s1 := updateMessagesOn sessions0 aid currentMessages
  let stor2 := saveChatHistory stor1 s1
  let s2 := updateMessagesOn sessions0 aid (currentMessages ++ [waitingMessage])
  let stor3 := saveChatHistory stor2 s2
  let st1 : AppState := { st with storage := stor3, sessions := s2, isLoading := true }
  let ev1 := [Event.searchAdd userMessage.text, Event.persist s1,
              Event.persist s2, Event.videoRequest prompt]
  match generateVideo outcome apiKey with
  | none => (st1, ev1)
  | some (.ok videoUrl) =>
    let modelMessage : Message :=
      { sender := .model, text := "Aqui está o vídeo que você pediu: \"" ++ prompt ++ "\"",
        videoUrl := some videoUrl }
    let s3 := updateMessagesOn sessions0 aid (currentMessages ++ [modelMessage])
    ({ st1 with storage := saveChatHistory stor3 s3, sessions := s3,
                isLoading := false },
     ev1 ++ [Event.persist s3])
  | some (.error apiErr) =>
    let st2 := if apiErr.isBilling
      then { st1 with videoGenAvailable := false } else st1
    let errorMessage : Message :=
      { sender := .model, text := "⚠️ **Erro:** " ++ apiErr.message }
    let s3 := updateMessagesOn sessions0 aid (currentMessages ++ [errorMessage])
    ({ st2 with storage := saveChatHistory stor3 s3, sessions := s3,
                isLoading := false },
     ev1 ++ [Event.persist s3])

/-- handleNewSession from App.tsx: create (and persist) a session, prepend it
to the React session list and make it active. -/
def handleNewSession (st : AppState) (now : String) : AppState :=
  let created := createNewSession st.storage now
  { st with storage := created.2, sessions := created.1 :: st.sessions,
            activeSessionId := some created.1.id }

/-- handleDeleteSession from App.tsx: delete through the store; when the
active session was deleted fall back to the head of the remaining collection
or create a fresh session if none remain. -/
def handleDeleteSession (st : AppState) (id now : String) : AppState :=
  let deleted := deleteSession st.storage id
  let st1 : AppState := { st with storage := deleted.2, sessions := deleted.1 }
  if st.activeSessionId == some id then
    match deleted.1 with
    | s :: _ => { st1 with activeSessionId := some s.id }
    | [] => handleNewSession { st1 with activeSessionId := none } now
  else st1

/-- handleClearAllHistory from App.tsx: persist the empty collection, then
create one fresh session and make it the whole collection. -/
def handleClearAllHistory (st : AppState) (now : String) : AppState :=
  let stor1 := saveChatHistory st.storage []
  let created := createNewSession stor1 now
  { st with storage := created.2, sessions := [created.1],
            activeSessionId := some created.1.id }

/-- The App state right after the mount effect: load the stored history and
activate its head, or create a fresh session when the store is empty; the
availability flags start at their useState(true) initial values. -/
def initAppState (stor : Storage) (now : String) : AppState :=
  let base : AppState :=
    { storage := stor, sessions := [], activeSessionId := none,
      isLoading := false, streamingMessage := none,
      imageGenAvailable := true, videoGenAvailable := true,
      language := "pt-BR" }
  match getChatHistory stor with
  | s :: rest =>
    { base with sessions := s :: rest, activeSessionId := some s.id }
  | [] => handleNewSession base now

/-- One user-initiated operation together with the provider outcomes it
consumes. -/
inductive Op where
  | send (text : String) (img : Option String)
      (titleOutcome : Except RawError String) (fragments : List String)
      (streamErr : Option RawError)
  | genImage (prompt : String) (outcome : Except RawError (Option String))
  | genVideo (prompt : String)
      (outcome : Except RawError (VideoOp × List VideoOp)) (apiKey : String)
  | newSession (now : String)
  | deleteOp (id : String) (now : String)
  | clearAll (now : String)

/-- Dispatch of one operation. -/
def step (st : AppState) : Op → AppState × List Event
  | .send t i tout f e => handleSendMessage st t i tout f e
  | .genImage p o => handleGenerateImage st p o
  | .genVideo p o k => handleGenerateVideo st p o k
  | .newSession now => (handleNewSession st now, [])
  | .deleteOp id now => (handleDeleteSession st id now, [])
  | .clearAll now => (handleClearAllHistory st now, [])

/-- Sequential execution of a list of operations. -/
def runOps (st : AppState) (ops : List Op) : AppState :=
  ops.foldl (fun s op => (step s op).1) st

theorem getChatHistory_saveChatHistory (stor : Storage) (h : List ChatSession) :
    getChatHistory (saveChatHistory stor h) = h := by
  simp [getChatHistory, saveChatHistory, decodeSessions_encodeSessions]

theorem getSearchHistory_saveSearchHistory (stor : Storage) (l : List String) :
    getSearchHistory (saveSearchHistory stor l) = l := by
  simp [getSearchHistory, saveSearchHistory, decodeStrings_encodeStrings]

theorem getChatHistory_saveSearchHistory (stor : Storage) (l : List String) :
    getChatHistory (saveSearchHistory stor l) = getChatHistory stor := rfl

theorem getChatHistory_addSearchHistoryEntry (stor : Storage) (q : String) :
    getChatHistory (addSearchHistoryEntry stor q) = getChatHistory stor := by
  unfold addSearchHistoryEntry
  split
  · rfl
  · exact getChatHistory_saveSearchHistory _ _

theorem find?_updateMessagesOn (l : List ChatSession) (sid : String)
    (ms : List Message) :
    (updateMessagesOn l sid ms).find? (fun s => s.id == sid)
      = (l.find? (fun s => s.id == sid)).map (fun s => { s with messages := ms }) := by
  induction l with
  | nil => rfl
  | cons a t ih =>
    by_cases h : a.id = sid
    · simp [updateMessagesOn, List.find?, h]
    · simp only [updateMessagesOn, List.map_cons] at ih ⊢
      rw [if_neg (by simpa using h)]
      rw [List.find?_cons_of_neg _ (by simpa using h),
          List.find?_cons_of_neg _ (by simpa using h)]
      exact ih

theorem find?_setTitleFirst_messages (l : List ChatSession) (sid t : String) :
    ((setTitleFirst l sid t).find? (fun s => s.id == sid)).map (fun s => s.messages)
      = (l.find? (fun s => s.id == sid)).map (fun s => s.messages) := by
  induction l with
  | nil => rfl
  | cons a rest ih =>
    by_cases h : a.id = sid
    · simp [setTitleFirst, List.find?, h]
    · simp only [setTitleFirst]
      rw [if_neg (by simpa using h)]
      rw [List.find?_cons_of_neg _ (by simpa using h),
          List.find?_cons_of_neg _ (by simpa using h)]
      exact ih

theorem handleSendMessage_flags (st : AppState) (t : String) (i : Option String)
    (tout : Except RawError String) (f : List String) (e : Option RawError) :
    ((handleSendMessage st t i tout f e).1).imageGenAvailable = st.imageGenAvailable
    ∧ ((handleSendMessage st t i tout f e).1).videoGenAvailable = st.videoGenAvailable := by
  unfold handleSendMessage
  repeat' first
    | rfl
    | (constructor <;> rfl)
    | split
    | dsimp only

theorem handleGenerateImage_videoFlag (st : AppState) (p : String)
    (o : Except RawError (Option String)) :
    ((handleGenerateImage st p o).1).videoGenAvailable = st.videoGenAvailable := by
  unfold handleGenerateImage
  repeat' first
    | rfl
    | split

theorem handleGenerateVideo_imageFlag (st : AppState) (p : String)
    (o : Except RawError (VideoOp × List VideoOp)) (k : String) :
    ((handleGenerateVideo st p o k).1).imageGenAvailable = st.imageGenAvailable := by
  unfold handleGenerateVideo
  repeat' first
    | rfl
    | split

theorem handleNewSession_flags (st : AppState) (now : String) :
    (handleNewSession st now).imageGenAvailable = st.imageGenAvailable
    ∧ (handleNewSession st now).videoGenAvailable = st.videoGenAvailable :=
  ⟨rfl, rfl⟩

theorem handleDeleteSession_flags (st : AppState) (id now : String) :
    (handleDeleteSession st id now).imageGenAvailable = st.imageGenAvailable
    ∧ (handleDeleteSession st id now).videoGenAvailable = st.videoGenAvailable := by
  unfold handleDeleteSession
  repeat' first
    | rfl
    | (constructor <;> rfl)
    | split
    | dsimp only

theorem handleClearAllHistory_flags (st : AppState) (now : String) :
    (handleClearAllHistory st now).imageGenAvailable = st.imageGenAvailable
    ∧ (handleClearAllHistory st now).videoGenAvailable = st.videoGenAvailable :=
  ⟨rfl, rfl⟩

theorem handleGenerateImage_unavailable (st : AppState) (p : String)
    (o : Except RawError (Option String)) (h : st.imageGenAvailable = false) :
    handleGenerateImage st p o = (st, []) := by
  unfold handleGenerateImage
  simp [h]

theorem handleGenerateVideo_unavailable (st : AppState) (p : String)
    (o : Except RawError (VideoOp × List VideoOp)) (k : String)
    (h : st.videoGenAvailable = false) :
    handleGenerateVideo st p o k = (st, []) := by
  unfold handleGenerateVideo
  simp [h]

theorem step_imageFlag_mono (st : AppState) (op : Op)
    (h : st.imageGenAvailable = false) :
    ((step st op).1).imageGenAvailable = false := by
  cases op with
  | send t i tout f e => rw [step, (handleSendMessage_flags st t i tout f e).1, h]
  | genImage p o => rw [step, handleGenerateImage_unavailable st p o h]; exact h
  | genVideo p o k => rw [step, handleGenerateVideo_imageFlag st p o k]; exact h
  | newSession now => rw [step]; exact (handleNewSession_flags st now).1.trans h
  | deleteOp id now => rw [step]; exact (handleDeleteSession_flags st id now).1.trans h
  | clearAll now => rw [step]; exact (handleClearAllHistory_flags st now).1.trans h

theorem step_videoFlag_mono (st : AppState) (op : Op)
    (h : st.videoGenAvailable = false) :
    ((step st op).1).videoGenAvailable = false := by
  cases op with
  | send t i tout f e => rw [step, (handleSendMessage_flags st t i tout f e).2, h]
  | genImage p o => rw [step, handleGenerateImage_videoFlag st p o]; exact h
  | genVideo p o k => rw [step, handleGenerateVideo_unavailable st p o k h]; exact h
  | newSession now => rw [step]; exact (handleNewSession_flags st now).2.trans h
  | deleteOp id now => rw [step]; exact (handleDeleteSession_flags st id now).2.trans h
  | clearAll now => rw [step]; exact (handleClearAllHistory_flags st now).2.trans h

theorem runOps_imageFlag_mono (ops : List Op) (st : AppState)
    (h : st.imageGenAvailable = false) :
    (runOps st ops).imageGenAvailable = false := by
  induction ops generalizing st with
  | nil => exact h
  | cons op rest ih =>
    exact ih ((step st op).1) (step_imageFlag_mono st op h)

theorem runOps_videoFlag_mono (ops : List Op) (st : AppState)
    (h : st.videoGenAvailable = false) :
    (runOps st ops).videoGenAvailable = false := by
  induction ops generalizing st with
  | nil => exact h
  | cons op rest ih =>
    exact ih ((step st op).1) (step_videoFlag_mono st op h)

theorem handleGenerateImage_billing (st : AppState) (p : String) (raw : RawError)
    (hL : st.isLoading = false) (hA : st.activeSessionId.isSome = true)
    (hI : st.imageGenAvailable = true)
    (hB : (handleApiError raw "geração de imagem").isBilling = true) :
    ((handleGenerateImage st p (.error raw)).1).imageGenAvailable = false := by
  unfold handleGenerateImage
  rw [if_neg (by simp [hL, hI, Option.isNone_iff_eq_none]; intro hn; simp [hn] at hA)]
  dsimp only [generateImage]
  simp only [hB, if_true]

theorem handleGenerateVideo_billing (st : AppState) (p : String) (raw : RawError)
    (k : String)
    (hL : st.isLoading = false) (hA : st.activeSessionId.isSome = true)
    (hV : st.videoGenAvailable = true)
    (hB : (handleApiError raw "geração de vídeo").isBilling = true) :
    ((handleGenerateVideo st p (.error raw) k).1).videoGenAvailable = false := by
  unfold handleGenerateVideo
  rw [if_neg (by simp [hL, hV, Option.isNone_iff_eq_none]; intro hn; simp [hn] at hA)]
  dsimp only [generateVideo]
  simp only [hB, if_true]

/-- Empty localStorage, the state of a first visit. -/
def emptyStorage : Storage := { chat := none, search := none }

/-- A fresh session fixture used by the concrete witnesses. -/
def sessionS1 : ChatSession := { id := "s1", title := "Novo Chat", messages := [] }

/-- App state fixture: one fresh active session, nothing in flight. -/
def fixtureState : AppState :=
  { storage := saveChatHistory emptyStorage [sessionS1],
    sessions := [sessionS1], activeSessionId := some "s1",
    isLoading := false, streamingMessage := none,
    imageGenAvailable := true, videoGenAvailable := true, language := "pt-BR" }

/-- C6: adding a non-empty query yields the query followed by the prior
entries minus its case-insensitive matches, truncated to the cap (newest
kept, oldest dropped); adding the empty query changes nothing. -/
theorem claim_C6_addSearchHistory (stor : Storage) (q : String) :
    (¬q = "" → getSearchHistory (addSearchHistoryEntry stor q)
      = (q :: (getSearchHistory stor).filter
          (fun item => !(strToLower item == strToLower q))).take MAX_HISTORY_SIZE)
    ∧ (q = "" → addSearchHistoryEntry stor q = stor) := by
  constructor
  · intro hq
    unfold addSearchHistoryEntry
    rw [if_neg (by simpa using hq)]
    rw [getSearchHistory_saveSearchHistory]
    split
    · rfl
    · next h => exact (List.take_of_length_le (by omega)).symm
  · intro hq
    unfold addSearchHistoryEntry
    rw [if_pos (by simpa using hq)]

/-- C6 witness: a concrete dedup run, "Cat" then "cat" leaves the single
entry "cat" at the front. -/
theorem claim_C6_witness :
    getSearchHistory (addSearchHistoryEntry
      (addSearchHistoryEntry emptyStorage "Cat") "cat") = ["cat"] := by
  have h := (claim_C6_addSearchHistory (addSearchHistoryEntry emptyStorage "Cat") "cat").1
    (by decide)
  rw [h]
  decide

/-- C7: generateChatTitle absorbs every failure into the fixed fallback
title, returns the cleaned response otherwise (the fallback when cleaning
empties it), and cleans "Title: Trip to Japan" to "Trip to Japan". -/
theorem claim_C7_generateChatTitle :
    (∀ lang e, generateChatTitle (.error e) lang = fallbackTitle lang)
    ∧ (∀ lang raw, generateChatTitle (.ok raw) lang
        = if cleanTitle raw == "" then fallbackTitle lang else cleanTitle raw)
    ∧ generateChatTitle (.ok "Title: Trip to Japan") "pt-BR" = "Trip to Japan"
    ∧ generateChatTitle (.error RawError.prim) "pt-BR" = "Novo Chat" := by
  refine ⟨fun _ _ => rfl, fun _ _ => rfl, by decide, rfl⟩

/-- C8 counterexample: a message containing the quota pattern is not
classified as the quota error when it also contains the billing pattern —
the classifier tests the patterns in priority order, so the claim's
unconditional "contains the quota pattern yields QuotaExceeded" is false. -/
theorem claim_C8_counterexample :
    strContains (extractMessage (RawError.str "quota of billed users")) "quota" = true
    ∧ handleApiError (RawError.str "quota of billed users") "resposta do chat"
        ≠ quotaApiError
    ∧ (handleApiError (RawError.str "quota of billed users") "resposta do chat").isBilling
        = true := by
  refine ⟨by decide, by decide, by decide⟩

/-- C8 amended: the classifier is total and determined only by substrings of
the extracted message, tested in priority order billing pattern, invalid
credential pattern, quota pattern; every other input maps to the generic
error. -/
theorem claim_C8_handleApiError (e : RawError) (context : String) :
    (strContains (extractMessage e) "billed users" = true →
      handleApiError e context = billingApiError context)
    ∧ (strContains (extractMessage e) "billed users" = false →
       strContains (extractMessage e) "API key not valid" = true →
      handleApiError e context = invalidKeyApiError)
    ∧ (strContains (extractMessage e) "billed users" = false →
       strContains (extractMessage e) "API key not valid" = false →
       strContains (extractMessage e) "quota" = true →
      handleApiError e context = quotaApiError)
    ∧ (strContains (extractMessage e) "billed users" = false →
       strContains (extractMessage e) "API key not valid" = false →
       strContains (extractMessage e) "quota" = false →
      handleApiError e context = genericApiError context) := by
  unfold handleApiError
  exact ⟨fun h1 => by simp [h1], fun h1 h2 => by simp [h1, h2],
    fun h1 h2 h3 => by simp [h1, h2, h3], fun h1 h2 h3 => by simp [h1, h2, h3]⟩

/-- C8 witness: the billing pattern classifies as the BillingError. -/
theorem claim_C8_witness :
    handleApiError (RawError.str "this model is only for billed users")
      "geração de imagem" = billingApiError "geração de imagem" :=
  (claim_C8_handleApiError (RawError.str "this model is only for billed users")
    "geração de imagem").1 (by decide)

/-- C9: loading right after saving returns the same collection (in order and
content), and saving what was just loaded leaves the persisted state fixed. -/
theorem claim_C9_roundTrip :
    (∀ stor h, getChatHistory (saveChatHistory stor h) = h)
    ∧ (∀ stor, saveChatHistory (saveChatHistory stor (getChatHistory stor))
        (getChatHistory (saveChatHistory stor (getChatHistory stor)))
        = saveChatHistory stor (getChatHistory stor)) := by
  refine ⟨getChatHistory_saveChatHistory, fun stor => ?_⟩
  rw [getChatHistory_saveChatHistory]
  rfl

/-- C10: a send with empty text and no attachment is a complete no-op: the
state (sessions, storage with transcript and search history, loading and
streaming state, flags) is returned untouched and the event trace is empty —
no user message is appended and no search-history entry is recorded. -/
theorem claim_C10_emptySend (st : AppState) (tout : Except RawError String)
    (frags : List String) (err : Option RawError) :
    handleSendMessage st "" none tout frags err = (st, []) := by
  unfold handleSendMessage
  split <;> rfl

/-- C5 counterexample: createNewSession derives the id from the clock
(`new Date().toISOString()`) with no uniqueness check, so against a
collection already holding a session with that timestamp id the "id differs
from every existing session's id" property fails. -/
theorem claim_C5_counterexample :
    ((createNewSession (saveChatHistory emptyStorage
        [{ id := "2025-01-01T00:00:00.000Z", title := "t", messages := [] }])
      "2025-01-01T00:00:00.000Z").1).id
    ∈ (getChatHistory (saveChatHistory emptyStorage
        [{ id := "2025-01-01T00:00:00.000Z", title := "t", messages := [] }])).map
      (fun s => s.id) := by
  decide

/-- C5 amended: create() yields a session whose id is the creation
timestamp, with empty transcript and the default title, inserted at index 0
of the persisted collection, persisted immediately; the id differs from
every existing id exactly when no existing session already carries that
timestamp as id. -/
theorem claim_C5_createNewSession (stor : Storage) (now : String) :
    ((createNewSession stor now).1).id = now
    ∧ ((createNewSession stor now).1).title = "Novo Chat"
    ∧ ((createNewSession stor now).1).messages = []
    ∧ getChatHistory (createNewSession stor now).2
        = (createNewSession stor now).1 :: getChatHistory stor
    ∧ (now ∉ (getChatHistory stor).map (fun s => s.id) →
        ∀ t ∈ getChatHistory stor, ((createNewSession stor now).1).id ≠ t.id) := by
  refine ⟨rfl, rfl, rfl, ?_, ?_⟩
  · unfold createNewSession
    exact getChatHistory_saveChatHistory stor _
  · intro h t ht heq
    exact h (List.mem_map.mpr ⟨t, ht, heq.symm⟩)

/-- C5 witness: with a timestamp unequal to every stored id the created id
differs from the stored session's id. -/
theorem claim_C5_witness :
    ((createNewSession (saveChatHistory emptyStorage [sessionS1]) "2025-06-01").1).id
      ≠ sessionS1.id :=
  (claim_C5_createNewSession (saveChatHistory emptyStorage [sessionS1])
    "2025-06-01").2.2.2.2 (by decide) sessionS1 (by decide)

/-- C2: a chat turn whose stream yields the given fragments and completes
commits a model message whose text is exactly their concatenation in
emission order; with an empty concatenation no model message is appended —
the active transcript ends at the user message. -/
theorem claim_C2_streaming (st : AppState) (s : ChatSession)
    (aid messageText : String) (img : Option String)
    (tout : Except RawError String) (frags : List String)
    (hL : st.isLoading = false) (hA : st.activeSessionId = some aid)
    (hT : ¬messageText = "")
    (hS : st.sessions.find? (fun x => x.id == aid) = some s) :
    (((handleSendMessage st messageText img tout frags none).1).sessions.find?
        (fun x => x.id == aid)).map (fun x => x.messages)
      = some ((s.messages
          ++ [{ sender := .user, text := messageText, imageUrl := img }])
          ++ (if String.join frags == "" then []
              else [{ sender := .model, text := String.join frags }])) := by
  have hT2 : (messageText == "") = false := by simpa using hT
  by_cases hj : (String.join frags == "") = true <;>
    by_cases hlen : ((s.messages
      ++ [(⟨Sender.user, messageText, img, none⟩ : Message)]).length == 1) = true <;>
    simp only [handleSendMessage, hL, hA, Option.isNone_some, Bool.false_or,
      Bool.false_eq_true, if_false, Option.getD_some, hT2, Bool.and_false, hS,
      hj, hlen, if_true, ite_false, ite_true, updateSessionTitle,
      getChatHistory_saveChatHistory, find?_updateMessagesOn, Option.map_some,
      Option.map_some', find?_setTitleFirst_messages, List.append_nil]

/-- C2 witness: the fragments "Hi" and " there" commit exactly "Hi there". -/
theorem claim_C2_witness :
    (((handleSendMessage fixtureState "Say hi" none (.ok "T") ["Hi", " there"]
        none).1).sessions.find? (fun x => x.id == "s1")).map (fun x => x.messages)
      = some [(⟨Sender.user, "Say hi", none, none⟩ : Message),
              (⟨Sender.model, "Hi there", none, none⟩ : Message)] := by
  rw [claim_C2_streaming fixtureState sessionS1 "s1" "Say hi" none (.ok "T")
    ["Hi", " there"] rfl rfl (by decide) (by decide)]
  decide

/-- Recognizes the completion of the title-generation request in a trace. -/
def isTitleDone : Event → Bool
  | .titleDone _ => true
  | _ => false

/-- Recognizes the start of stream consumption in a trace. -/
def isStreamStart : Event → Bool
  | .streamStart => true
  | _ => false

/-- C4 amended: on a session's first message the title request is awaited to
completion before the chat stream is consumed.  In every such turn's trace
the title completion sits at index 3 and stream-consumption start at index
5 — title generation does block the visible turn. -/
theorem claim_C4_titleAwaited (st : AppState) (s : ChatSession)
    (aid messageText : String) (img : Option String)
    (tout : Except RawError String) (frags : List String) (err : Option RawError)
    (hL : st.isLoading = false) (hA : st.activeSessionId = some aid)
    (hT : ¬messageText = "")
    (hS : st.sessions.find? (fun x => x.id == aid) = some s)
    (hFirst : s.messages = []) :
    (handleSendMessage st messageText img tout frags err).2.findIdx isTitleDone = 3
    ∧ (handleSendMessage st messageText img tout frags err).2.findIdx isStreamStart = 5 := by
  have hT2 : (messageText == "") = false := by simpa using hT
  cases err with
  | none =>
    by_cases hj : (String.join frags == "") = true <;>
      refine ⟨?_, ?_⟩ <;>
      simp [handleSendMessage, hL, hA, hT2, hS, hFirst, hj, isTitleDone,
        isStreamStart, List.findIdx_cons]
  | some raw =>
    refine ⟨?_, ?_⟩ <;>
      simp [handleSendMessage, hL, hA, hT2, hS, hFirst, isTitleDone,
        isStreamStart, List.findIdx_cons]

/-- C4 counterexample: in a concrete first-message turn the title completion
(index 3) precedes the start of stream consumption (index 5), so consumption
of the streamed chat response does wait for the title request — the claimed
non-blocking concurrency is false. -/
theorem claim_C4_counterexample :
    ((handleSendMessage fixtureState "Plan a trip to Japan" none
        (.ok "Title: Trip to Japan") ["Hi", " there"] none).2.findIdx isTitleDone = 3)
    ∧ ((handleSendMessage fixtureState "Plan a trip to Japan" none
        (.ok "Title: Trip to Japan") ["Hi", " there"] none).2.findIdx isStreamStart = 5)
    ∧ ¬((handleSendMessage fixtureState "Plan a trip to Japan" none
        (.ok "Title: Trip to Japan") ["Hi", " there"] none).2.findIdx isStreamStart
      < (handleSendMessage fixtureState "Plan a trip to Japan" none
        (.ok "Title: Trip to Japan") ["Hi", " there"] none).2.findIdx isTitleDone) := by
  refine ⟨by decide, by decide, by decide⟩

/-- C4 witness: a concrete first-message turn with its title-completion and
stream-start indices. -/
theorem claim_C4_witness :
    (handleSendMessage fixtureState "Oi" none (.ok "T") ["x"] none).2.findIdx
      isTitleDone = 3
    ∧ (handleSendMessage fixtureState "Oi" none (.ok "T") ["x"] none).2.findIdx
      isStreamStart = 5 :=
  claim_C4_titleAwaited fixtureState sessionS1 "s1" "Oi" none (.ok "T") ["x"]
    none rfl rfl (by decide) (by decide) rfl

/-- C1 amended: in a successful video turn the pending placeholder is
appended and persisted before the provider request and poll loop begin, but
on completion the final message replaces it: the last persisted collection
and the final transcript are the pre-turn messages plus the user message
plus the final video message, with no pending placeholder preceding it. -/
theorem claim_C1_videoTurn (st : AppState) (s : ChatSession)
    (aid prompt key u : String) (op0 : VideoOp) (rest : List VideoOp) (opF : VideoOp)
    (hL : st.isLoading = false) (hA : st.activeSessionId = some aid)
    (hV : st.videoGenAvailable = true)
    (hS : st.sessions.find? (fun x => x.id == aid) = some s)
    (hPoll : pollLoop op0 rest = some opF) (hUri : opF.uri = some u) :
    (handleGenerateVideo st prompt (.ok (op0, rest)) key).2
      = [Event.searchAdd ("Gerar vídeo: \"" ++ prompt ++ "\""),
         Event.persist (updateMessagesOn st.sessions aid
           (s.messages ++ [(⟨Sender.user, "Gerar vídeo: \"" ++ prompt ++ "\"",
             none, none⟩ : Message)])),
         Event.persist (updateMessagesOn st.sessions aid
           ((s.messages ++ [(⟨Sender.user, "Gerar vídeo: \"" ++ prompt ++ "\"",
             none, none⟩ : Message)]) ++ [waitingMessage])),
         Event.videoRequest prompt,
         Event.persist (updateMessagesOn st.sessions aid
           ((s.messages ++ [(⟨Sender.user, "Gerar vídeo: \"" ++ prompt ++ "\"",
             none, none⟩ : Message)])
            ++ [(⟨Sender.model, "Aqui está o vídeo que você pediu: \"" ++ prompt ++ "\"",
             none, some (u ++ "&key=" ++ key)⟩ : Message)]))]
    ∧ (((handleGenerateVideo st prompt (.ok (op0, rest)) key).1).sessions.find?
        (fun x => x.id == aid)).map (fun x => x.messages)
      = some ((s.messages ++ [(⟨Sender.user, "Gerar vídeo: \"" ++ prompt ++ "\"",
             none, none⟩ : Message)])
            ++ [(⟨Sender.model, "Aqui está o vídeo que você pediu: \"" ++ prompt ++ "\"",
             none, some (u ++ "&key=" ++ key)⟩ : Message)]) := by
  refine ⟨?_, ?_⟩
  · simp only [handleGenerateVideo, hL, hA, hV, Option.isNone_some,
      Bool.false_or, Bool.not_true, Bool.or_false, Bool.false_eq_true, if_false,
      ite_false, Option.getD_some, hS, generateVideo, hPoll, hUri,
      find?_updateMessagesOn, Option.map_some']
    rfl
  · simp only [handleGenerateVideo, hL, hA, hV, Option.isNone_some,
      Bool.false_or, Bool.not_true, Bool.or_false, Bool.false_eq_true, if_false,
      ite_false, Option.getD_some, hS, generateVideo, hPoll, hUri,
      find?_updateMessagesOn, Option.map_some']

/-- C1 counterexample: a concrete successful video turn (done reported false
twice, then true with a result URI) ends with a transcript of exactly the
user message followed by the final video message — the count of pending
placeholder messages in the completed transcript is zero, not one, because
the final write replaces the placeholder. -/
theorem claim_C1_counterexample :
    (((handleGenerateVideo fixtureState "gato"
        (.ok (⟨false, none⟩, [⟨false, none⟩, ⟨true, some "http://u"⟩])) "K").1).sessions.find?
        (fun x => x.id == "s1")).map (fun x => x.messages)
      = some [(⟨Sender.user, "Gerar vídeo: \"gato\"", none, none⟩ : Message),
              (⟨Sender.model, "Aqui está o vídeo que você pediu: \"gato\"", none,
                some "http://u&key=K"⟩ : Message)]
    ∧ (((handleGenerateVideo fixtureState "gato"
        (.ok (⟨false, none⟩, [⟨false, none⟩, ⟨true, some "http://u"⟩])) "K").1).sessions.find?
        (fun x => x.id == "s1")).map
          (fun x => x.messages.countP (fun m => m.text == waitingMessage.text))
      = some 0 := by
  refine ⟨by decide, by decide⟩

/-- C1 witness: the amended statement applied to the concrete scenario. -/
theorem claim_C1_witness :
    (((handleGenerateVideo fixtureState "gato"
        (.ok (⟨false, none⟩, [⟨false, none⟩, ⟨true, some "http://u"⟩])) "K").1).sessions.find?
        (fun x => x.id == "s1")).map (fun x => x.messages)
      = some ((sessionS1.messages ++ [(⟨Sender.user, "Gerar vídeo: \"" ++ "gato" ++ "\"",
             none, none⟩ : Message)])
            ++ [(⟨Sender.model, "Aqui está o vídeo que você pediu: \"" ++ "gato" ++ "\"",
             none, some ("http://u" ++ "&key=" ++ "K")⟩ : Message)]) :=
  (claim_C1_videoTurn fixtureState sessionS1 "s1" "gato" "K" "http://u"
    ⟨false, none⟩ [⟨false, none⟩, ⟨true, some "http://u"⟩] ⟨true, some "http://u"⟩
    rfl rfl rfl (by decide) (by decide) rfl).2

/-- C3: both availability flags start true; a billing-classified failure of
an image (resp. video) turn sets the corresponding flag to false; once a
flag is false no sequence of operations ever sets it back to true; and an
image (resp. video) request while its flag is false is rejected as a no-op
with an empty event trace — the provider is never contacted. -/
theorem claim_C3_featureFlags :
    (∀ stor now, (initAppState stor now).imageGenAvailable = true
      ∧ (initAppState stor now).videoGenAvailable = true)
    ∧ (∀ st p raw, st.isLoading = false → st.activeSessionId.isSome = true →
        st.imageGenAvailable = true →
        (handleApiError raw "geração de imagem").isBilling = true →
        ((step st (.genImage p (.error raw))).1).imageGenAvailable = false)
    ∧ (∀ st p raw k, st.isLoading = false → st.activeSessionId.isSome = true →
        st.videoGenAvailable = true →
        (handleApiError raw "geração de vídeo").isBilling = true →
        ((step st (.genVideo p (.error raw) k)).1).videoGenAvailable = false)
    ∧ (∀ st ops, st.imageGenAvailable = false →
        (runOps st ops).imageGenAvailable = false)
    ∧ (∀ st ops, st.videoGenAvailable = false →
        (runOps st ops).videoGenAvailable = false)
    ∧ (∀ st p o, st.imageGenAvailable = false → step st (.genImage p o) = (st, []))
    ∧ (∀ st p o k, st.videoGenAvailable = false →
        step st (.genVideo p o k) = (st, [])) := by
  refine ⟨?_, ?_, ?_, ?_, ?_, ?_, ?_⟩
  · intro stor now
    unfold initAppState
    split <;> exact ⟨rfl, rfl⟩
  · intro st p raw hL hA hI hB
    exact handleGenerateImage_billing st p raw hL hA hI hB
  · intro st p raw k hL hA hV hB
    exact handleGenerateVideo_billing st p raw k hL hA hV hB
  · intro st ops h
    exact runOps_imageFlag_mono ops st h
  · intro st ops h
    exact runOps_videoFlag_mono ops st h
  · intro st p o h
    exact handleGenerateImage_unavailable st p o h
  · intro st p o k h
    exact handleGenerateVideo_unavailable st p o k h

/-- C3 witness: a billing-classified image failure on a concrete ready state
downgrades the image flag. -/
theorem claim_C3_witness :
    ((step fixtureState (Op.genImage "a cat"
        (.error (RawError.str "only billed users allowed")))).1).imageGenAvailable
      = false :=
  claim_C3_featureFlags.2.1 fixtureState "a cat"
    (RawError.str "only billed users allowed") rfl rfl rfl (by decide)

end ChatApp
